import Mathlib

/-
  Verification of the template execution engine in src/exec.rs of
  gtmpl-rust.  The walker, the expression evaluator, the variable stack
  and the field accessor are translated from the Rust source into a
  shallow embedding; evaluation results (Arc of Any in the source) are
  modelled by the dynamic Value sum, which the spec fixes as the uniform
  runtime representation.  Stateful code (the mutable State with its
  writer, variable stack and current node) is embedded in the
  state-and-error monad EStateM String State, whose error results carry
  the state at the moment of failure, exactly like an early return
  through a mutable borrow.  Recursion through the tree and through
  named templates is bounded by an explicit fuel parameter; running out
  of fuel is an error, and every concrete run below carries enough fuel.
-/

namespace Gtmpl

/-- Modelled from the spec (section 3): the dynamic value sum of the
    external gtmpl_value crate (the Value Bridge of the spec).  Numbers
    are modelled as integers; no claim depends on floating point.  The
    map payloads of Map and Object are association lists with distinct
    keys, standing for the hash maps of the source. -/
inductive Value where
  | Nil : Value
  | NoValue : Value
  | Bool : Bool → Value
  | Number : Int → Value
  | String : String → Value
  | Array : List Value → Value
  | Map : List (String × Value) → Value
  | Object : List (String × Value) → Value

/-- Key lookup in an association list, standing for HashMap::get. -/
def lookupKey {κ β : Type} [BEq κ] (o : List (κ × β)) (key : κ) : Option β :=
  (o.find? (fun p => p.1 == key)).map (fun p => p.2)

/-- Modelled from the spec (section 4.1): utils::is_true (src/utils.rs is
    not among the provided sources).  Null, NoValue, false, 0, the empty
    string and empty composites are falsy; everything else is truthy. -/
def is_true : Value → Bool
  | .Nil => false
  | .NoValue => false
  | .Bool b => b
  | .Number n => !(n == 0)
  | .String s => !(s == "")
  | .Array xs => !xs.isEmpty
  | .Map m => !m.isEmpty
  | .Object m => !m.isEmpty

/-- Modelled from the spec (sections 4.1 and 4.6): the canonical textual
    form of a value (Display of the external gtmpl_value crate).  The
    spec fixes the scalar forms and the NoValue sentinel; the composite
    forms are left unspecified there and no claim depends on them, so
    they are rendered as simple markers. -/
def valueText : Value → String
  | .Nil => "nil"
  | .NoValue => "<no value>"
  | .Bool b => if b then "true" else "false"
  | .Number n => toString n
  | .String s => s
  | .Array _ => "<array>"
  | .Map _ => "<map>"
  | .Object _ => "<object>"

mutual

/-- Modelled from the spec (section 3): the parser node sum (node.rs is
    not among the provided sources).  Only the payload fields that
    src/exec.rs reads are modelled; literal nodes carry their value in
    the dynamic representation, mirroring the value field of the source
    nodes.  The spec states that a Template node carries both a name and
    an optional pipeline supplying the dot. -/
inductive Nodes where
  | Text : String → Nodes
  | Action : PipeNode → Nodes
  | List : List Nodes → Nodes
  | If : BranchNode → Nodes
  | With : BranchNode → Nodes
  | Range : RangeNode → Nodes
  | Template : TemplateNode → Nodes
  | Pipe : PipeNode → Nodes
  | Field : List String → Nodes
  | Chain : ChainNode → Nodes
  | Variable : List String → Nodes
  | Identifier : String → Nodes
  | Dot : Nodes
  | Nil : Nodes
  | Bool : Value → Nodes
  | Number : Value → Nodes
  | String : Value → Nodes

/-- A pipeline: declared variable names and the command stages. -/
inductive PipeNode where
  | mk : (decl : List String) → (cmds : List CommandNode) → PipeNode

/-- One stage of a pipeline: its argument nodes. -/
inductive CommandNode where
  | mk : (args : List Nodes) → CommandNode

/-- Payload of If and With nodes: pipe, body list, optional else list. -/
inductive BranchNode where
  | mk : (pipe : PipeNode) → (list : List Nodes) → (else_list : Option (List Nodes)) → BranchNode

/-- Payload of a Range node: pipe, body list, optional else list. -/
inductive RangeNode where
  | mk : (pipe : PipeNode) → (list : List Nodes) → (else_list : Option (List Nodes)) → RangeNode

/-- Payload of a Template node: target name and optional pipeline. -/
inductive TemplateNode where
  | mk : (name : String) → (pipe : Option PipeNode) → TemplateNode

/-- Payload of a Chain node: base expression and field names. -/
inductive ChainNode where
  | mk : (node : Nodes) → (field : List String) → ChainNode

end

end Gtmpl

namespace Gtmpl

def PipeNode.decl : PipeNode → List String
  | .mk d _ => d

def PipeNode.cmds : PipeNode → List CommandNode
  | .mk _ c => c

def CommandNode.args : CommandNode → List Nodes
  | .mk a => a

def BranchNode.pipe : BranchNode → PipeNode
  | .mk p _ _ => p

def BranchNode.list : BranchNode → List Nodes
  | .mk _ l _ => l

def BranchNode.else_list : BranchNode → Option (List Nodes)
  | .mk _ _ e => e

def RangeNode.pipe : RangeNode → PipeNode
  | .mk p _ _ => p

def RangeNode.list : RangeNode → List Nodes
  | .mk _ l _ => l

def RangeNode.else_list : RangeNode → Option (List Nodes)
  | .mk _ _ e => e

def TemplateNode.name : TemplateNode → String
  | .mk n _ => n

def TemplateNode.pipe : TemplateNode → Option PipeNode
  | .mk _ p => p

def ChainNode.node : ChainNode → Nodes
  | .mk n _ => n

def ChainNode.field : ChainNode → List String
  | .mk _ f => f

/-- A registered template function (gtmpl_value::Func). -/
def Func : Type := List Value → Except String Value

/-- The template registry consulted by the walker (template.rs is not
    among the provided sources; this carries exactly the fields that
    src/exec.rs reads: name, tree_ids, tree_set and funcs).  A tree is
    modelled by its optional root node. -/
structure Template where
  name : String
  tree_ids : List (Nat × String)
  tree_set : List (String × Option Nodes)
  funcs : List (String × Func)

/-- src/exec.rs Context: the current dot.  The Arc of Any payload is
    modelled by the dynamic Value. -/
structure Context where
  dot : Value

/-- src/exec.rs Context::from (the name from is a Lean keyword).  The
    Into conversion of the source is performed by the caller in this
    model, so the function receives the already serialized Value. -/
def Context.fromValue (value : Value) : Except String Context :=
  .ok { dot := value }

/-- src/exec.rs Variable: a named binding on the variable stack. -/
structure Variable where
  name : String
  value : Value

/-- src/exec.rs State.  The writer is modelled by the accumulated output
    string; vars is the stack of frames, listed front to back, so the
    top frame of the stack is the LAST list entry, exactly as in the
    VecDeque of VecDeques of the source (push_back, back_mut, pop_back
    all act on the end of the outer list). -/
structure State where
  template : Template
  output : String
  node : Option Nodes
  vars : List (List Variable)
  depth : Nat

/-- The execution monad: state plus early-returning string errors.  An
    error result still carries the state at the failure point, matching
    the mutations already performed through the mutable borrow. -/
abbrev M (α : Type) : Type := EStateM String State α

/-- Early return with an error, keeping the current state. -/
def err {α : Type} (e : String) : M α := fun s => .error e s

/-- Lift a pure fallible computation into the monad. -/
def liftE {α : Type} : Except String α → M α
  | .ok a => pure a
  | .error e => err e

/-- The state carried by a result, for ok and error alike. -/
def resState {α : Type} : EStateM.Result String State α → State
  | .ok _ s => s
  | .error _ s => s

/-- The width of usize on the 64 bit targets the crate is built for. -/
def USIZE : Nat := 2 ^ 64

/-- Rust usize subtraction in release mode: wraps modulo 2 ^ 64 on
    underflow (debug builds would abort instead; the released library is
    compiled without overflow checks). -/
def subUsize (a b : Nat) : Nat := (a + USIZE - b % USIZE) % USIZE

/-- src/exec.rs State::set_kth_last_var_value: rebind the kth-last
    variable of the top (back) frame. -/
def set_kth_last_var_value (k : Nat) (value : Value) : M Unit := fun s =>
  match s.vars.getLast? with
  | some last_vars =>
    let i := subUsize last_vars.length k
    match last_vars.get? i with
    | some kth_last_var =>
        .ok () { s with vars := s.vars.dropLast ++ [last_vars.set i { kth_last_var with value := value }] }
    | none => .error ("current var context smaller than " ++ toString k) s
  | none => .error "empty var stack" s

/-- src/exec.rs State::var_value: scan frames from the top of the stack,
    and inside a frame from the most recent binding. -/
def var_value (key : String) : M Value := fun s =>
  match s.vars.reverse.findSome? (fun context =>
      context.reverse.findSome? (fun var =>
        if var.name == key then some var.value else none)) with
  | some v => .ok v s
  | none => .error ("variable " ++ key ++ " not found") s

/-- The decl loop body of src/exec.rs State::eval_pipeline: push a new
    binding onto the back frame, failing on an empty stack. -/
def declareVar (name : String) (val : Value) : M Unit := fun s =>
  match s.vars.getLast? with
  | some last_vars =>
      .ok () { s with vars := s.vars.dropLast ++ [last_vars ++ [⟨name, val⟩]] }
  | none => .error "no stack while evaluating pipeline" s

/-- src/exec.rs not_a_function (the apostrophe of the source message is
    omitted). -/
def not_a_function (args : List Nodes) (val : Option Value) : Except String Unit :=
  if args.length > 1 || val.isSome then
    .error "cant give arument to non-function"
  else
    .ok ()

/-- src/exec.rs State::eval_field: field access on the dynamic value.
    The downcast of the receiver always succeeds in this model, since
    every runtime value is a Value. -/
def eval_field (receiver : Value) (field_name : String) (args : List Nodes)
    (fin : Option Value) : Except String Value :=
  let has_args := args.length > 1 || fin.isSome
  if has_args then
    .error (field_name ++ " has arguments but cannot be invoked as function")
  else
    match receiver with
    | Value.Object o =>
        match lookupKey o field_name with
        | some v => .ok v
        | none => .error ("no field " ++ field_name ++ " for " ++ valueText receiver)
    | Value.Map o =>
        match lookupKey o field_name with
        | some v => .ok v
        | none => .ok Value.NoValue
    | _ => .error "only maps and objects have fields"

/-- src/exec.rs State::eval_field_chain: walk the leading fields with no
    arguments, then the last field with the callers arguments.  The
    initial value of r mirrors the unused Arc::new(0) placeholder. -/
def eval_field_chain (receiver : Value) (ident : List String) (args : List Nodes)
    (fin : Option Value) : Except String Value := do
  let n := ident.length
  if n < 1 then
    Except.error "field chain without fields :/"
  else do
    let mut r : Value := Value.Number 0
    for p in (ident.take (n - 1)).enum do
      r ← eval_field (if p.1 == 0 then receiver else r) p.2 [] none
    eval_field (if n == 1 then receiver else r) (ident.getD (n - 1) "") args fin

/-- src/exec.rs State::eval_field_node: a field chain rooted at dot. -/
def eval_field_node (ctx : Context) (ident : List String) (args : List Nodes)
    (fin : Option Value) : M Value :=
  liftE (eval_field_chain ctx.dot ident args fin)

/-- src/exec.rs State::eval_variable_node: resolve the variable, then
    continue as a field chain along the remaining idents.  The source
    indexes ident[0]; the parser guarantees a nonempty ident list. -/
def eval_variable_node (vident : List String) (args : List Nodes)
    (fin : Option Value) : M Value := do
  let val ← var_value (vident.getD 0 "")
  if vident.length == 1 then do
    liftE (not_a_function args fin)
    pure val
  else
    liftE (eval_field_chain val (vident.drop 1) args fin)

/-- Append text to the writer (write! of the source). -/
def write (text : String) : M Unit :=
  modify (fun s => { s with output := s.output ++ text })

/-- src/exec.rs State::print_value.  The print_val macro downcasts raw
    scalars before falling back to the Value form; in this model every
    runtime value is a Value, so all cases collapse into its canonical
    text. -/
def print_value (val : Value) : M Unit :=
  write (valueText val)

mutual

/-- src/exec.rs State::eval_pipeline: run the commands left to right,
    feeding each result to the next stage as the trailing input, then
    bind the declared variables to the final value. -/
def eval_pipeline : Nat → Context → PipeNode → M Value
  | 0, _, _ => err "out of fuel"
  | fuel+1, ctx, pipe => do
    let mut val : Option Value := none
    for cmd in pipe.cmds do
      val := some (← eval_command fuel ctx cmd val)
    match val with
    | none => err "error evaluating pipeline"
    | some v => do
      for var in pipe.decl do
        declareVar var v
      pure v

/-- src/exec.rs State::eval_command: dispatch on the first node of the
    command; for the literal fall-through cases first check that no
    arguments were given. -/
def eval_command : Nat → Context → CommandNode → Option Value → M Value
  | 0, _, _, _ => err "out of fuel"
  | fuel+1, ctx, cmd, val =>
    match cmd.args.head? with
    | none => err "no arguments for command node"
    | some first_word =>
      match first_word with
      | Nodes.Field ident => eval_field_node ctx ident cmd.args val
      | Nodes.Variable ident => eval_variable_node ident cmd.args val
      | Nodes.Pipe n => eval_pipeline fuel ctx n
      | Nodes.Chain n => eval_chain_node fuel ctx n cmd.args val
      | Nodes.Identifier n => eval_function fuel ctx n cmd.args val
      | _ => do
        liftE (not_a_function cmd.args val)
        match first_word with
        | Nodes.Bool value => pure value
        | Nodes.Dot => pure ctx.dot
        | Nodes.Number value => pure value
        | _ => err "cannot evaluate command"

/-- src/exec.rs State::eval_function: look up the identifier in the
    function table and call it. -/
def eval_function : Nat → Context → String → List Nodes → Option Value → M Value
  | 0, _, _, _, _ => err "out of fuel"
  | fuel+1, ctx, name, args, fin => do
    let s ← get
    match lookupKey s.template.funcs name with
    | some function => eval_call fuel ctx function args fin
    | none => err (name ++ " is not a defined function")

/-- src/exec.rs State::eval_call: evaluate the argument nodes after the
    first, append the trailing pipeline input if present, and invoke the
    function. -/
def eval_call : Nat → Context → Func → List Nodes → Option Value → M Value
  | 0, _, _, _, _ => err "out of fuel"
  | fuel+1, ctx, function, args, fin => do
    let mut arg_vals : List Value := []
    for arg in args.drop 1 do
      let val ← eval_arg fuel ctx arg
      arg_vals := arg_vals ++ [val]
    match fin with
    | some f => arg_vals := arg_vals ++ [f]
    | none => pure ()
    liftE (function arg_vals)

/-- src/exec.rs State::eval_chain_node: reject empty field lists and nil
    bases, then evaluate the base and walk the field chain. -/
def eval_chain_node : Nat → Context → ChainNode → List Nodes → Option Value → M Value
  | 0, _, _, _, _ => err "out of fuel"
  | fuel+1, ctx, chain, args, fin => do
    if chain.field.isEmpty then
      err "internal error: no fields in eval_chain_node"
    else
      match chain.node with
      | Nodes.Nil => err "inderection throug explicit nul"
      | _ => do
        let pipe ← eval_arg fuel ctx chain.node
        liftE (eval_field_chain pipe chain.field args fin)

/-- src/exec.rs State::eval_arg: evaluate an argument node with no
    arguments of its own and no trailing input. -/
def eval_arg : Nat → Context → Nodes → M Value
  | 0, _, _ => err "out of fuel"
  | fuel+1, ctx, node =>
    match node with
    | Nodes.Dot => pure ctx.dot
    | Nodes.Field ident => eval_field_node ctx ident [] none
    | Nodes.Variable ident => eval_variable_node ident [] none
    | Nodes.Pipe n => eval_pipeline fuel ctx n
    | Nodes.Chain n => eval_chain_node fuel ctx n [] none
    | Nodes.String value => pure value
    | Nodes.Bool value => pure value
    | Nodes.Number value => pure value
    | _ => err "cant handle arg"

end

mutual

/-- src/exec.rs State::walk: the top level walk over the tree, recording
    the current node and dispatching on its kind. -/
def walk : Nat → Context → Nodes → M Unit
  | 0, _, _ => err "out of fuel"
  | fuel+1, ctx, node => do
    modify (fun s => { s with node := some node })
    match node with
    | Nodes.Action n => do
        let val ← eval_pipeline fuel ctx n
        if n.decl.isEmpty then
          print_value val
        else
          pure ()
    | Nodes.If _ | Nodes.With _ => walk_if_or_with fuel node ctx
    | Nodes.Range n => walk_range fuel ctx n
    | Nodes.List n => walk_list fuel ctx n
    | Nodes.Text n => write n
    | Nodes.Template n => walk_template fuel ctx n
    | _ => err "unknown node"

/-- src/exec.rs State::walk_list: walk the children in order, aborting
    at the first failure. -/
def walk_list : Nat → Context → List Nodes → M Unit
  | 0, _, _ => err "out of fuel"
  | fuel+1, ctx, nodes => do
    for n in nodes do
      walk fuel ctx n

/-- src/exec.rs State::walk_if_or_with: evaluate the pipe, test its
    truthiness, and walk the body (With rebinding dot to the pipe value)
    or the else list. -/
def walk_if_or_with : Nat → Nodes → Context → M Unit
  | 0, _, _ => err "out of fuel"
  | fuel+1, node, ctx =>
    match node with
    | Nodes.If b | Nodes.With b => do
        let val ← eval_pipeline fuel ctx b.pipe
        let truth := is_true val
        if truth then
          match node with
          | Nodes.If n => walk_list fuel ctx n.list
          | Nodes.With n => walk_list fuel (Context.mk val) n.list
          | _ => pure ()
        else
          match node with
          | Nodes.If n | Nodes.With n =>
            match n.else_list with
            | some otherwise => walk_list fuel ctx otherwise
            | none => pure ()
          | _ => pure ()
    | _ => err "expected if or with node"

/-- src/exec.rs State::one_iteration: rebind the declared range
    variables on the top frame, push a fresh frame, walk the body with
    dot bound to the element, and pop the frame afterwards.  Note that
    an error from the body propagates before the pop. -/
def one_iteration : Nat → Value → Value → RangeNode → M Unit
  | 0, _, _, _ => err "out of fuel"
  | fuel+1, key, val, range => do
    if !range.pipe.decl.isEmpty then
      set_kth_last_var_value 1 val
    if range.pipe.decl.length > 1 then
      set_kth_last_var_value 2 key
    modify (fun s => { s with vars := s.vars ++ [[]] })
    walk_list fuel (Context.mk val) range.list
    modify (fun s => { s with vars := s.vars.dropLast })

/-- src/exec.rs State::walk_range: evaluate the pipe, iterate maps,
    objects and arrays via one_iteration, fail on any other value, and
    afterwards fall through to the else list whenever one is present.
    The downcast of the pipe value always succeeds in this model. -/
def walk_range : Nat → Context → RangeNode → M Unit
  | 0, _, _ => err "out of fuel"
  | fuel+1, ctx, range => do
    let val ← eval_pipeline fuel ctx range.pipe
    match val with
    | Value.Object map | Value.Map map =>
        for kv in map do
          one_iteration fuel (Value.String kv.1) kv.2 range
    | Value.Array vec =>
        for kv in vec.enum do
          one_iteration fuel (Value.Number (Int.ofNat kv.1)) kv.2 range
    | _ => err ("invalid range: " ++ valueText val)
    match range.else_list with
    | some else_list => walk_list fuel ctx else_list
    | none => pure ()

/-- src/exec.rs State::walk_template: look up the named tree, build a
    brand new State with a fresh single-frame stack binding the dollar
    variable to the dot of the CALLER context, sharing the writer, and
    walk the root of that tree against the caller context.  The pipe of
    the Template node is never consulted. -/
def walk_template : Nat → Context → TemplateNode → M Unit
  | 0, _, _ => err "out of fuel"
  | fuel+1, ctx, template => fun s =>
    match lookupKey s.template.tree_set template.name with
    | some (some root) =>
        match walk fuel ctx root
            { template := s.template, output := s.output, node := none,
              vars := [[⟨"$", ctx.dot⟩]], depth := s.depth + 1 } with
        | .ok _ s2 => .ok () { s with output := s2.output }
        | .error e s2 => .error e { s with output := s2.output }
    | _ => .error "work in progress" s

end

/-- src/exec.rs Template::execute: locate the root template through
    tree_ids and tree_set, build the initial state whose single frame
    binds the dollar variable to the data dot, and walk the root. -/
def execute (fuel : Nat) (t : Template) (data : Context) : EStateM.Result String State Unit :=
  let dot : List Variable := [⟨"$", data.dot⟩]
  let vars : List (List Variable) := [dot]
  let state : State :=
    { template := t, output := "", node := none, vars := vars, depth := 0 }
  match (lookupKey t.tree_ids 1).bind (fun name => lookupKey t.tree_set name) with
  | some (some root) => walk fuel data root state
  | _ => .error (t.name ++ " is an incomplete or empty template") state

/-- src/exec.rs Template::render: execute into a fresh buffer and return
    it (the UTF-8 conversion of the source cannot fail in this model). -/
def render (fuel : Nat) (t : Template) (data : Context) : Except String String :=
  match execute fuel t data with
  | .ok _ s => .ok s.output
  | .error e _ => .error e

/-- The pipe values accepted by the iteration match of walk_range. -/
def isIterable : Value → Bool
  | .Array _ => true
  | .Map _ => true
  | .Object _ => true
  | _ => false

/- Concrete fixtures used by the theorems below. -/

/-- A registry with no trees and no functions. -/
def tmpl0 : Template := { name := "t", tree_ids := [], tree_set := [], funcs := [] }

/-- A state over the empty registry with a given variable stack. -/
def stateV (vars : List (List Variable)) : State :=
  { template := tmpl0, output := "", node := none, vars := vars, depth := 0 }

/-- The initial state of an execution whose dot is the given value. -/
def state0 (dot : Value) : State := stateV [[⟨"$", dot⟩]]

/-- The pipeline consisting of the single command dot. -/
def dotPipe : PipeNode := .mk [] [ .mk [Nodes.Dot] ]

/-- A range over dot whose body prints B and whose else list prints E. -/
def rangeC1 : RangeNode := .mk dotPipe [Nodes.Text "B"] (some [Nodes.Text "E"])

/-- A declaration-free range over dot whose body reads the field foo. -/
def rangeC4 : RangeNode :=
  .mk (.mk [] [ .mk [Nodes.Dot] ]) [Nodes.Action (.mk [] [ .mk [Nodes.Field ["foo"]] ])] none

/-- A range over dot declaring the two variables of the source test
    test_proper_range, with an empty body. -/
def rangeC3 : RangeNode := .mk (.mk ["$k", "$v"] [ .mk [Nodes.Dot] ]) [] none

/-- A state whose single frame already holds the two declared range
    variables, as eval_pipeline leaves them before the iterations. -/
def stateC3 : State := stateV [[⟨"$k", Value.NoValue⟩, ⟨"$v", Value.NoValue⟩]]

/-- A declaration-free range over dot with empty body and no else. -/
def rangeC5 : RangeNode := .mk dotPipe [] none

/-- A registry holding one tree named t that prints dot. -/
def treeT : List (String × Option Nodes) := [("t", some (Nodes.Action dotPipe))]

/-- The registry used for the template-invocation fixtures. -/
def tmplC2 : Template := { name := "m", tree_ids := [(1, "m")], tree_set := treeT, funcs := [] }

/-- A pipeline whose value is the number 99. -/
def pipe99 : PipeNode := .mk [] [ .mk [Nodes.Number (Value.Number 99)] ]

/-- A Template node naming t and carrying the pipeline 99. -/
def tnodeC2 : TemplateNode := .mk "t" (some pipe99)

/-- The caller state for the template-invocation fixtures: dot is 1. -/
def stateC2 : State :=
  { template := tmplC2, output := "", node := none, vars := [[⟨"$", Value.Number 1⟩]], depth := 0 }

/-- The root of the tree named t. -/
def root9 : Nodes := Nodes.Action dotPipe

/-- The fresh state a nested invocation of t from stateC2 starts in. -/
def fresh9 : State :=
  { template := tmplC2, output := "", node := none, vars := [[⟨"$", Value.Number 1⟩]], depth := 1 }

/-- A two-variable frame for the set_kth_last witness. -/
def frame7 : List Variable := [⟨"a", Value.Nil⟩, ⟨"b", Value.Nil⟩]

/-- A state whose variable stack is the single frame frame7. -/
def state7 : State := stateV [frame7]

/- Helper lemmas. -/

/-- Applying a bound computation to a state steps through the first
    computation and feeds its result onward. -/
theorem bind_apply {α β : Type} (x : M α) (f : α → M β) (s : State) :
    (x >>= f) s = match x s with
      | .ok a s1 => f a s1
      | .error e s1 => .error e s1 := by
  show EStateM.bind x f s = _
  unfold EStateM.bind
  cases x s <;> rfl

/-- Wrapping usize subtraction agrees with truncated subtraction when no
    underflow happens. -/
theorem subUsize_of_le {a b : Nat} (hba : b ≤ a) (ha : a < USIZE) : subUsize a b = a - b := by
  unfold subUsize
  have hb : b % USIZE = b := Nat.mod_eq_of_lt (Nat.lt_of_le_of_lt hba ha)
  rw [hb]
  have h1 : a + USIZE - b = (a - b) + USIZE := by omega
  rw [h1, Nat.add_mod_right]
  exact Nat.mod_eq_of_lt (by omega)

/-- Wrapping usize subtraction jumps past the minuend on underflow. -/
theorem subUsize_gt {a b : Nat} (hab : a < b) (hb : b < USIZE) : a < subUsize a b := by
  unfold subUsize
  have hbm : b % USIZE = b := Nat.mod_eq_of_lt hb
  rw [hbm]
  have h1 : a + USIZE - b < USIZE := by omega
  rw [Nat.mod_eq_of_lt h1]
  omega

/-- Indexing an appended list past the prefix reads the suffix. -/
theorem get_append_length {α : Type} (l t : List α) (j : Nat) :
    (l ++ t).get? (l.length + j) = t.get? j := by
  induction l with
  | nil => simp
  | cons x xs ih =>
      have h : xs.length + 1 + j = (xs.length + j) + 1 := by omega
      simpa [List.cons_append, h] using ih

/-- Setting an appended list past the prefix updates the suffix. -/
theorem set_append_length {α : Type} (l t : List α) (j : Nat) (x : α) :
    (l ++ t).set (l.length + j) x = l ++ t.set j x := by
  induction l with
  | nil => simp
  | cons y ys ih =>
      have h : ys.length + 1 + j = (ys.length + j) + 1 := by omega
      simp [List.cons_append, h, ih]

/-- Walking an empty list changes nothing. -/
theorem walk_list_nil (fuel : Nat) (ctx : Context) (s : State) :
    walk_list (fuel+1) ctx [] s = .ok () s := rfl

/-- Running pure yields the value and keeps the state. -/
theorem pure_apply {α : Type} (a : α) (s : State) : (pure a : M α) s = .ok a s := rfl

/-- Running modify applies the function to the state. -/
theorem modify_apply (g : State → State) (s : State) : (modify g : M Unit) s = .ok () (g s) := rfl

/-- set_kth_last_var_value succeeds and rebinds the kth-last variable of
    the top frame when the frame is large enough. -/
theorem set_kth_last_ok (s : State) (k : Nat) (val : Value) (vs : List (List Variable))
    (fr : List Variable) (v : Variable)
    (hs : s.vars = vs ++ [fr]) (hkf : k ≤ fr.length) (hlen : fr.length < USIZE)
    (hv : fr.get? (fr.length - k) = some v) :
    set_kth_last_var_value k val s
      = .ok () { s with vars := vs ++ [fr.set (fr.length - k) { v with value := val }] } := by
  have hlast : s.vars.getLast? = some fr := by rw [hs]; exact List.getLast?_concat _
  have hdrop : s.vars.dropLast = vs := by rw [hs]; exact List.dropLast_concat
  unfold set_kth_last_var_value
  simp only [hlast, subUsize_of_le hkf hlen, hv, hdrop]

/-- set_kth_last_var_value fails with the frame-too-small message when
    the top frame is shorter than k. -/
theorem set_kth_last_err (s : State) (k : Nat) (val : Value) (vs : List (List Variable))
    (fr : List Variable)
    (hs : s.vars = vs ++ [fr]) (hfk : fr.length < k) (hk : k < USIZE) :
    set_kth_last_var_value k val s
      = .error ("current var context smaller than " ++ toString k) s := by
  have hlast : s.vars.getLast? = some fr := by rw [hs]; exact List.getLast?_concat _
  have hnone : fr.get? (subUsize fr.length k) = none :=
    List.get?_eq_none.mpr (Nat.le_of_lt (subUsize_gt hfk hk))
  unfold set_kth_last_var_value
  simp only [hlast, hnone]

/-- C1: the claim states that after iterating a non-empty iterable the
    else list of a range is not executed.  The source of walk_range
    falls through to the else list after the iteration loop, so ranging
    over the one-element array [7] with body B and else list E emits BE
    instead of the claimed B: the else list runs even after a normal,
    non-empty iteration. -/
theorem c1_range_walks_else_after_iteration :
    ∃ s, walk_range 4 (Context.mk (Value.Array [Value.Number 7])) rangeC1
        (state0 (Value.Array [Value.Number 7]))
      = .ok () s ∧ s.output = "BE" :=
  ⟨_, rfl, rfl⟩

/-- C2: the claim states that the engine evaluates the Template node
    pipeline against the caller context and uses the result as the new
    dot.  The source of walk_template never reads the pipe: invoking the
    tree t (which prints its dot) through a Template node whose pipeline
    evaluates to 99, from a caller whose dot is 1, prints 1 and not 99 -
    the caller dot is always used. -/
theorem c2_template_pipe_ignored :
    (∃ s, walk_template 4 (Context.mk (Value.Number 1)) tnodeC2 stateC2 = .ok () s
       ∧ s.output = "1")
    ∧ valueText (Value.Number 99) = "99"
    ∧ ("1" : String) ≠ "99" :=
  ⟨⟨_, rfl, rfl⟩, rfl, by decide⟩

/-- C3 counterexample: with the declarations [$k, $v] on the top frame,
    one iteration over the pair (key a, element 7) leaves the FIRST
    declared variable $k bound to the key a and the second declared
    variable $v bound to the element 7 - the claim states the first
    declared variable is rebound to the element, which is false here. -/
theorem c3_first_declared_gets_key :
    (∃ s, one_iteration 3 (Value.String "a") (Value.Number 7) rangeC3 stateC3 = .ok () s
       ∧ s.vars = [[⟨"$k", Value.String "a"⟩, ⟨"$v", Value.Number 7⟩]])
    ∧ Value.String "a" ≠ Value.Number 7 :=
  ⟨⟨_, rfl, rfl⟩, fun h => nomatch h⟩

/-- C3 amended: the rebinding of one_iteration targets the top frame
    from its end, via set_kth_last_var_value with k = 1 and k = 2: if
    the pipe declares at least one variable, the LAST variable of the
    top frame - the most recently declared - is rebound to the element;
    if it declares at least two, the second-to-last is rebound to the
    key, so for a two-variable declaration the first declared variable
    receives the key and the second the element.  Stated for every fuel,
    key, element, stack prefix vs, frame prefix fr0 and bindings a, b,
    over a range with an empty body. -/
theorem c3_range_rebind_kth_last (fuel : Nat) (key val : Value) (k1 k2 : String)
    (cmds : List CommandNode) (vs : List (List Variable)) (fr0 : List Variable)
    (a b : Variable) (s : State) (hlen : fr0.length + 2 < USIZE) :
    (s.vars = vs ++ [fr0 ++ [a]] →
      one_iteration (fuel+2) key val (RangeNode.mk (PipeNode.mk [k1] cmds) [] none) s
        = .ok () { s with vars := vs ++ [fr0 ++ [⟨a.name, val⟩]] })
    ∧ (s.vars = vs ++ [fr0 ++ [a, b]] →
      one_iteration (fuel+2) key val (RangeNode.mk (PipeNode.mk [k1, k2] cmds) [] none) s
        = .ok () { s with vars := vs ++ [fr0 ++ [⟨a.name, key⟩, ⟨b.name, val⟩]] }) := by
  constructor
  · intro hs
    have hL : (fr0 ++ [a]).length = fr0.length + 1 := by simp
    have h11 : fr0.length + 1 - 1 = fr0.length + 0 := by omega
    have hget1 : (fr0 ++ [a]).get? ((fr0 ++ [a]).length - 1) = some a := by
      rw [hL, h11, get_append_length fr0 [a] 0]; rfl
    have hset1 : (fr0 ++ [a]).set ((fr0 ++ [a]).length - 1) { a with value := val }
        = fr0 ++ [{ a with value := val }] := by
      rw [hL, h11, set_append_length fr0 [a] 0]; rfl
    have h1 := set_kth_last_ok s 1 val vs (fr0 ++ [a]) a hs
        (by rw [hL]; omega) (by rw [hL]; omega) hget1
    rw [hset1] at h1
    unfold one_iteration
    simp [RangeNode.pipe, PipeNode.decl, RangeNode.list, bind_apply, h1,
      modify_apply, pure_apply, walk_list_nil, List.dropLast_concat]
  · intro hs
    have hL : (fr0 ++ [a, b]).length = fr0.length + 2 := by simp
    have h21 : fr0.length + 2 - 1 = fr0.length + 1 := by omega
    have h22 : fr0.length + 2 - 2 = fr0.length + 0 := by omega
    have hget1 : (fr0 ++ [a, b]).get? ((fr0 ++ [a, b]).length - 1) = some b := by
      rw [hL, h21, get_append_length fr0 [a, b] 1]; rfl
    have hset1 : (fr0 ++ [a, b]).set ((fr0 ++ [a, b]).length - 1) { b with value := val }
        = fr0 ++ [a, { b with value := val }] := by
      rw [hL, h21, set_append_length fr0 [a, b] 1]; rfl
    have h1 := set_kth_last_ok s 1 val vs (fr0 ++ [a, b]) b hs
        (by rw [hL]; omega) (by rw [hL]; exact hlen) hget1
    rw [hset1] at h1
    have hL1 : (fr0 ++ [a, { b with value := val }]).length = fr0.length + 2 := by simp
    have hget2 : (fr0 ++ [a, { b with value := val }]).get?
        ((fr0 ++ [a, { b with value := val }]).length - 2) = some a := by
      rw [hL1, h22, get_append_length fr0 [a, { b with value := val }] 0]; rfl
    have hset2 : (fr0 ++ [a, { b with value := val }]).set
        ((fr0 ++ [a, { b with value := val }]).length - 2) { a with value := key }
        = fr0 ++ [{ a with value := key }, { b with value := val }] := by
      rw [hL1, h22, set_append_length fr0 [a, { b with value := val }] 0]; rfl
    have h2 := set_kth_last_ok { s with vars := vs ++ [fr0 ++ [a, { b with value := val }]] }
        2 key vs (fr0 ++ [a, { b with value := val }]) a rfl
        (by rw [hL1]; omega) (by rw [hL1]; exact hlen) hget2
    rw [hset2] at h2
    unfold one_iteration
    simp [RangeNode.pipe, PipeNode.decl, RangeNode.list, bind_apply, h1, h2,
      modify_apply, pure_apply, walk_list_nil, List.dropLast_concat]

/-- C3 amended witness: the iteration of the counterexample input seen
    through the amended statement: the first declared variable receives
    the key and the second the element. -/
theorem c3_range_rebind_kth_last_witness :
    one_iteration 3 (Value.String "a") (Value.Number 7)
        (RangeNode.mk (PipeNode.mk ["$k", "$v"] [CommandNode.mk [Nodes.Dot]]) [] none) stateC3
      = .ok () { stateC3 with vars := [[⟨"$k", Value.String "a"⟩, ⟨"$v", Value.Number 7⟩]] } :=
  (c3_range_rebind_kth_last 1 (Value.String "a") (Value.Number 7) "$k" "$v"
      [CommandNode.mk [Nodes.Dot]] [] [] ⟨"$k", Value.NoValue⟩ ⟨"$v", Value.NoValue⟩ stateC3
      (by decide)).2 rfl

/-- C4: the claim states that the frame pushed by a range iteration is
    popped on every exit path, including errors from the body.  In the
    source of one_iteration the error from walk_list propagates before
    the pop: iterating a body that fails (a field access on the number
    element) returns the body error with TWO live frames, where the
    claim requires the single entry frame. -/
theorem c4_frame_not_popped_on_error :
    ∃ s, one_iteration 5 (Value.Number 0) (Value.Number 2) rangeC4 (state0 (Value.Number 5))
        = .error "only maps and objects have fields" s
      ∧ s.vars.length = 2 :=
  ⟨_, rfl, rfl⟩

/-- C5: when the range pipe evaluates to a value that is not an Array,
    Map or Object, walk_range fails with the invalid-range error in the
    state left by the pipe evaluation; the else list is never reached. -/
theorem c5_range_not_iterable (fuel : Nat) (ctx : Context) (range : RangeNode)
    (s s1 : State) (val : Value)
    (hp : eval_pipeline fuel ctx range.pipe s = .ok val s1)
    (hv : isIterable val = false) :
    walk_range (fuel+1) ctx range s
      = .error ("invalid range: " ++ valueText val) s1 := by
  unfold walk_range
  simp only [bind_apply, hp]
  cases val <;> simp_all [isIterable, err, bind_apply]

/-- C5 witness: ranging over the number 1 fails with the invalid-range
    error and leaves the state untouched. -/
theorem c5_range_not_iterable_witness :
    walk_range 3 (Context.mk (Value.Number 1)) rangeC5 (state0 (Value.Number 1))
      = .error ("invalid range: " ++ valueText (Value.Number 1)) (state0 (Value.Number 1)) :=
  c5_range_not_iterable 2 (Context.mk (Value.Number 1)) rangeC5
    (state0 (Value.Number 1)) (state0 (Value.Number 1)) (Value.Number 1) rfl rfl

/-- C6: the claim states that Bool, Number and String literal commands
    evaluate to the literal value.  Bool and Number do, but the second
    match of eval_command has no String arm, so a String literal command
    falls through to the cannot-evaluate error. -/
theorem c6_literal_commands :
    eval_command 1 (Context.mk Value.NoValue) (CommandNode.mk [Nodes.Bool (Value.Bool true)])
        none (state0 Value.NoValue)
      = .ok (Value.Bool true) (state0 Value.NoValue)
    ∧ eval_command 1 (Context.mk Value.NoValue) (CommandNode.mk [Nodes.Number (Value.Number 7)])
        none (state0 Value.NoValue)
      = .ok (Value.Number 7) (state0 Value.NoValue)
    ∧ eval_command 1 (Context.mk Value.NoValue) (CommandNode.mk [Nodes.String (Value.String "a")])
        none (state0 Value.NoValue)
      = .error "cannot evaluate command" (state0 Value.NoValue) :=
  ⟨rfl, rfl, rfl⟩

/-- C7: set_kth_last_var_value is total on a non-empty stack whose top
    frame is fr: if fr is shorter than k it returns the frame-too-small
    error (no panic: the usize subtraction wraps and the index probe
    simply misses), and if fr holds at least k variables it rebinds the
    kth-last variable of the top frame, keeping its name. -/
theorem c7_set_kth_last_total (s : State) (k : Nat) (val : Value)
    (vs : List (List Variable)) (fr : List Variable)
    (hs : s.vars = vs ++ [fr]) (hkU : k < USIZE) (hlen : fr.length < USIZE) :
    (fr.length < k →
      set_kth_last_var_value k val s
        = .error ("current var context smaller than " ++ toString k) s)
    ∧ (∀ v, k ≤ fr.length → fr.get? (fr.length - k) = some v →
      set_kth_last_var_value k val s
        = .ok () { s with vars := vs ++ [fr.set (fr.length - k) { v with value := val }] }) :=
  ⟨fun h => set_kth_last_err s k val vs fr hs h hkU,
   fun v h1 h2 => set_kth_last_ok s k val vs fr v hs h1 hlen h2⟩

/-- C7 witness: on the two-variable frame, k = 3 yields the
    frame-too-small error and k = 1 rebinds the last variable. -/
theorem c7_set_kth_last_total_witness :
    set_kth_last_var_value 3 Value.NoValue state7
      = .error ("current var context smaller than " ++ toString 3) state7
    ∧ set_kth_last_var_value 1 Value.NoValue state7
      = .ok () { state7 with vars := [] ++ [frame7.set (frame7.length - 1) ⟨"b", Value.NoValue⟩] } :=
  ⟨(c7_set_kth_last_total state7 3 Value.NoValue [] frame7 rfl (by decide) (by decide)).1
      (by decide),
   (c7_set_kth_last_total state7 1 Value.NoValue [] frame7 rfl (by decide) (by decide)).2
      ⟨"b", Value.Nil⟩ (by decide) rfl⟩

/-- C8: field access through eval_field distinguishes Object and Map: a
    present key returns its value on both; an absent key is the
    missing-field error on an Object but the NoValue sentinel - rendered
    as the fixed no-value text - on a Map. -/
theorem c8_field_access (o : List (String × Value)) (name : String) :
    (∀ v, lookupKey o name = some v →
      eval_field (Value.Object o) name [] none = .ok v
      ∧ eval_field (Value.Map o) name [] none = .ok v)
    ∧ (lookupKey o name = none →
      eval_field (Value.Object o) name [] none
        = .error ("no field " ++ name ++ " for " ++ valueText (Value.Object o))
      ∧ eval_field (Value.Map o) name [] none = .ok Value.NoValue)
    ∧ valueText Value.NoValue = "<no value>" := by
  refine ⟨fun v hv => ?_, fun hn => ?_, rfl⟩
  · unfold eval_field
    simp [hv]
  · unfold eval_field
    simp [hn]

/-- C8 witness: on the singleton map of the source test test_novalue,
    the key foo hits on both kinds and the key foo2 misses, erroring on
    the Object and yielding NoValue on the Map. -/
theorem c8_field_access_witness :
    (eval_field (Value.Object [("foo", Value.Number 23)]) "foo" [] none = .ok (Value.Number 23)
      ∧ eval_field (Value.Map [("foo", Value.Number 23)]) "foo" [] none = .ok (Value.Number 23))
    ∧ (eval_field (Value.Object [("foo", Value.Number 23)]) "foo2" [] none
        = .error ("no field " ++ "foo2" ++ " for " ++ valueText (Value.Object [("foo", Value.Number 23)]))
      ∧ eval_field (Value.Map [("foo", Value.Number 23)]) "foo2" [] none = .ok Value.NoValue) :=
  ⟨(c8_field_access [("foo", Value.Number 23)] "foo").1 (Value.Number 23) rfl,
   (c8_field_access [("foo", Value.Number 23)] "foo2").2.1 rfl⟩

/-- C9: a nested template invocation leaves the caller variable stack
    untouched (for every fuel, context, node and state, also on
    failure), and when the named tree exists it runs the walk of its
    root in a brand new state whose stack is the single frame binding
    the dollar variable to the caller-supplied dot, sharing the caller
    output sink and increasing the depth. -/
theorem c9_template_isolation (fuel : Nat) (ctx : Context) (t : TemplateNode) (s : State) :
    (resState (walk_template fuel ctx t s)).vars = s.vars
    ∧ (∀ root, lookupKey s.template.tree_set t.name = some (some root) →
        walk_template (fuel+1) ctx t s =
          match walk fuel ctx root
              { template := s.template, output := s.output, node := none,
                vars := [[⟨"$", ctx.dot⟩]], depth := s.depth + 1 } with
          | .ok _ s2 => .ok () { s with output := s2.output }
          | .error e s2 => .error e { s with output := s2.output }) := by
  constructor
  · cases fuel with
    | zero => rfl
    | succ fuel =>
        unfold walk_template
        split
        · split <;> rfl
        · rfl
  · intro root hroot
    unfold walk_template
    simp only [hroot]

/-- C9 witness: invoking the tree t from the caller state with dot 1
    keeps the caller stack and equals the walk of the root of t from the
    fresh single-frame state. -/
theorem c9_template_isolation_witness :
    (resState (walk_template 4 (Context.mk (Value.Number 1)) (TemplateNode.mk "t" none) stateC2)).vars
      = stateC2.vars
    ∧ walk_template 4 (Context.mk (Value.Number 1)) (TemplateNode.mk "t" none) stateC2 =
        match walk 3 (Context.mk (Value.Number 1)) root9 fresh9 with
        | .ok _ s2 => .ok () { stateC2 with output := s2.output }
        | .error e s2 => .error e { stateC2 with output := s2.output } :=
  ⟨(c9_template_isolation 4 (Context.mk (Value.Number 1)) (TemplateNode.mk "t" none) stateC2).1,
   (c9_template_isolation 3 (Context.mk (Value.Number 1)) (TemplateNode.mk "t" none) stateC2).2
     root9 rfl⟩

/-- C10: Context construction from a converted value always succeeds:
    the declared error branch of the Result is unreachable. -/
theorem c10_context_from_ok (value : Value) :
    Context.fromValue value = Except.ok (Context.mk value) := rfl

end Gtmpl
